import Mathlib

/-!
PiCameraStream: the polling helper and the display module.

A shallow embedding of `node_helper.js` (the per-identifier polling
scheduler) and of the parts of `MMM-PiCameraStream.js` that normalise the
configuration and derive the liveness status.

JavaScript values are embedded as `JsVal`; numbers as `JsNum` (NaN, the two
infinities and the finite values, taken as rationals: only comparisons,
`Math.max` and truthiness are applied to them).  The conversion of a string
to a number is a language built-in and is taken as a parameter `strToNum`.
-/

namespace PiCameraStream

/-! ## JavaScript values -/

/-- A JavaScript number. -/
inductive JsNum where
  | nan
  | negInf
  | fin (q : ℚ)
  | posInf
  deriving DecidableEq

/-- A JavaScript primitive value. -/
inductive JsVal where
  | undefined
  | null
  | bool (b : Bool)
  | num (n : JsNum)
  | str (s : String)
  deriving DecidableEq

/-- Truthiness of a number: everything but `0` and `NaN`. -/
def JsNum.truthy : JsNum → Bool
  | .nan => false
  | .fin q => decide (q ≠ 0)
  | _ => true

/-- The built-in `ToBoolean`. -/
def JsVal.truthy : JsVal → Bool
  | .undefined => false
  | .null => false
  | .bool b => b
  | .num n => n.truthy
  | .str s => decide (s ≠ "")

/-- The built-in `Number(v)`; `strToNum` is the built-in string conversion. -/
def Number (strToNum : String → JsNum) : JsVal → JsNum
  | .undefined => .nan
  | .null => .fin 0
  | .bool true => .fin 1
  | .bool false => .fin 0
  | .num n => n
  | .str s => strToNum s

/-- The expression `a || b` on numbers. -/
def JsNum.or (a b : JsNum) : JsNum := if a.truthy then a else b

/-- The expression `a || b` on values. -/
def JsVal.or (a b : JsVal) : JsVal := if a.truthy then a else b

/-- The comparison `a < b` on numbers (false when either side is `NaN`). -/
def JsNum.lt : JsNum → JsNum → Bool
  | .nan, _ => false
  | _, .nan => false
  | .negInf, .negInf => false
  | .negInf, _ => true
  | _, .negInf => false
  | .posInf, _ => false
  | .fin _, .posInf => true
  | .fin a, .fin b => decide (a < b)

/-- The comparison `a > b` on numbers. -/
def JsNum.gt (a b : JsNum) : Bool := JsNum.lt b a

/-- The comparison `a <= b` on numbers (false when either side is `NaN`). -/
def JsNum.le : JsNum → JsNum → Bool
  | .nan, _ => false
  | _, .nan => false
  | a, b => !(JsNum.lt b a)

/-- The built-in `Math.max(a, b)`. -/
def Math.max : JsNum → JsNum → JsNum
  | .nan, _ => .nan
  | _, .nan => .nan
  | a, b => if JsNum.lt a b then b else a

/-- The built-in `Math.min(a, b)`. -/
def Math.min : JsNum → JsNum → JsNum
  | .nan, _ => .nan
  | _, .nan => .nan
  | a, b => if JsNum.lt b a then b else a

/-- A number is strictly positive. -/
def JsNum.isPositive (n : JsNum) : Bool := JsNum.lt (.fin 0) n

/-! ## Configuration -/

/-- The configuration object of one module instance (`defaults` in
`MMM-PiCameraStream.js`); every property holds an arbitrary value. -/
structure Config where
  mode : JsVal
  url : JsVal
  width : JsVal
  height : JsVal
  refreshSnapshotInterval : JsVal
  showStatus : JsVal
  offlineTimeout : JsVal
  deriving DecidableEq

/-- The empty object `{}`. -/
def Config.empty : Config :=
  ⟨.undefined, .undefined, .undefined, .undefined, .undefined, .undefined, .undefined⟩

/-! ## The display module (`MMM-PiCameraStream.js`) -/

/-- A notification sent by the helper to the display module. -/
inductive Notification where
  | SNAPSHOT (identifier : String) (image : String) (timestamp : Int) (status : String)
  | STATUS (identifier : String) (status : String)
  deriving DecidableEq

/-- The identifier a notification carries. -/
def Notification.identifier : Notification → String
  | .SNAPSHOT i _ _ _ => i
  | .STATUS i _ => i

/-- The state of one display module instance. -/
structure Module where
  identifier : String
  config : Config
  imageSrc : Option String
  status : String
  lastPing : Int
  deriving DecidableEq

/-- The normalisation of the configuration at the head of `start ()`. -/
def normalizeConfig (strToNum : String → JsNum) (c : Config) : Config :=
  let mode0 := c.mode.or (.str "local")
  let mode := if mode0 = .str "local" ∨ mode0 = .str "snapshot" ∨ mode0 = .str "stream"
    then mode0 else .str "local"
  { c with
    mode := mode
    width := .num ((Number strToNum c.width).or (.fin 640))
    height := .num ((Number strToNum c.height).or (.fin 480))
    refreshSnapshotInterval :=
      .num (Math.max (.fin 0) ((Number strToNum c.refreshSnapshotInterval).or (.fin 0)))
    offlineTimeout :=
      .num (Math.max (.fin 0) ((Number strToNum c.offlineTimeout).or (.fin 0))) }

/-- The module's `start ()`: the state it leaves behind. -/
def Module.start (strToNum : String → JsNum) (identifier : String) (c : Config) : Module :=
  { identifier := identifier, config := normalizeConfig strToNum c, imageSrc := none,
    status := "INIT", lastPing := 0 }

/-- The period of the status check armed by `start ()`. -/
def checkInterval (strToNum : String → JsNum) (m : Module) : JsNum :=
  Math.max (.fin 1000) (Math.min (Number strToNum m.config.offlineTimeout) (.fin 5000))

/-- The module's `_setStatus (text)`. -/
def Module._setStatus (m : Module) (text : String) : Module := { m with status := text }

/-- One run of the periodic status check installed by `start ()`, at time
`now` (the value of `Date.now()`). -/
def Module.statusCheck (strToNum : String → JsNum) (m : Module) (now : Int) : Module :=
  if !m.config.showStatus.truthy then m
  else if JsNum.le (Number strToNum m.config.offlineTimeout) (.fin 0) then m
  else
    let delta : Int := now - m.lastPing
    if m.config.mode = .str "stream" then
      if m.lastPing = 0 then m._setStatus "Connecting..."
      else if JsNum.gt (.fin delta) (Number strToNum m.config.offlineTimeout) then
        m._setStatus "Offline"
      else m._setStatus "Online"
    else
      if m.lastPing = 0 then m._setStatus "Connecting..."
      else if JsNum.gt (.fin delta) (Number strToNum m.config.offlineTimeout) then
        m._setStatus "Offline"
      else m._setStatus "Online"

/-- The module's `socketNotificationReceived`, handling a notification of the
helper at time `now`. -/
def Module.socketNotificationReceived (m : Module) (n : Notification) (now : Int) : Module :=
  if n.identifier ≠ m.identifier then m
  else match n with
    | .SNAPSHOT _ image _ status =>
      let m1 := { m with imageSrc := some image, lastPing := now }
      if status ≠ "" then m1._setStatus status else m1
    | .STATUS _ status =>
      let m1 := if status.toLower = "online" then { m with lastPing := now } else m
      m1._setStatus status

/-! ## The helper (`node_helper.js`)

The helper is single-threaded: each socket notification, each timer callback
and each settling of an acquirer promise runs to completion, together with the
promise continuations it makes runnable.  The state below holds the instance
table, the timers that are armed (neither fired nor cleared), the acquisitions
suspended at the `await` of `_pollOnce`, and what has been sent and logged.
A record object is identified by `rid`: a timer callback writes to the record
it captured, which is the record of the table only while that one has not been
replaced. -/

/-- An error value thrown or used to reject a promise. -/
structure JsError where
  message : String
  deriving DecidableEq

/-- What an acquirer resolves with: the bytes as `buffer.toString("base64")`
gives them, and the content type when it is a string. -/
structure AcqResult where
  base64 : String
  contentType : Option String
  deriving DecidableEq

/-- An instance record `{ config, timer, paused, lastErrorAt, inProgress }`. -/
structure Rec where
  rid : Nat
  config : Option Config
  timer : Option Nat
  paused : Bool
  lastErrorAt : Int
  inProgress : Bool
  deriving DecidableEq

/-- An armed timer of `_scheduleNext`, with what its callback captured. -/
structure Timer where
  tid : Nat
  identifier : String
  rid : Nat
  config : Config
  interval : JsNum
  deriving DecidableEq

/-- Who awaits a `_pollOnce` promise: `_configureInstance` (through `.finally`)
or a timer callback (through `await`). -/
inductive Caller where
  | configure
  | timer
  deriving DecidableEq

/-- An acquisition in flight: a `_pollOnce` call suspended on its acquirer. -/
structure Acq where
  aid : Nat
  identifier : String
  config : Option Config
  isLocal : Bool
  timeoutMs : JsNum
  caller : Caller
  deriving DecidableEq

/-- The state of the helper. -/
structure Helper where
  instances : List (String × Rec)
  timers : List Timer
  inflight : List Acq
  sent : List Notification
  logged : Nat
  nextRid : Nat
  nextTid : Nat
  nextAid : Nat
  deriving DecidableEq

/-- The helper's `start ()`. -/
def Helper.start : Helper :=
  { instances := [], timers := [], inflight := [], sent := [], logged := 0,
    nextRid := 0, nextTid := 0, nextAid := 0 }

/-- The table's `get`. -/
def mapGet : List (String × Rec) → String → Option Rec
  | [], _ => none
  | (k, r) :: m, id => if k = id then some r else mapGet m id

/-- The table's `set`. -/
def mapSet : List (String × Rec) → String → Rec → List (String × Rec)
  | [], id, r => [(id, r)]
  | (k, r0) :: m, id, r => if k = id then (k, r) :: m else (k, r0) :: mapSet m id r

/-- A write to the record stored under `id`, if there is one. -/
def mapUpdate : List (String × Rec) → String → (Rec → Rec) → List (String × Rec)
  | [], _, _ => []
  | (k, r) :: m, id, f => if k = id then (k, f r) :: m else (k, r) :: mapUpdate m id f

/-- The built-in `clearTimeout`. -/
def clearTimeout (s : Helper) (tid : Nat) : Helper :=
  { s with timers := s.timers.filter (fun t => t.tid ≠ tid) }

/-- The helper's `sendSocketNotification`. -/
def sendSocketNotification (s : Helper) (n : Notification) : Helper :=
  { s with sent := s.sent ++ [n] }

/-- The helper's `stop ()`. -/
def Helper.stop (s : Helper) : Helper :=
  let s1 := s.instances.foldl
    (fun acc p => match p.2.timer with
      | some t => clearTimeout acc t
      | none => acc) s
  { s1 with instances := [] }

/-- The mode `(config && config.mode) || "local"`. -/
def modeOf (config : Option Config) : JsVal :=
  match config with
  | some c => c.mode.or (.str "local")
  | none => .str "local"

/-- The helper's `_scheduleNext (identifier)`. -/
def _scheduleNext (strToNum : String → JsNum) (s : Helper) (identifier : String) : Helper :=
  match mapGet s.instances identifier with
  | none => s
  | some inst =>
    if inst.paused then s
    else
      let config := inst.config.getD Config.empty
      let mode := config.mode.or (.str "local")
      if mode ≠ .str "local" ∧ mode ≠ .str "snapshot" then s
      else
        let interval :=
          Math.max (.fin 500) ((Number strToNum config.refreshSnapshotInterval).or (.fin 1000))
        { s with
          timers := s.timers ++ [⟨s.nextTid, identifier, inst.rid, config, interval⟩]
          instances := mapUpdate s.instances identifier (fun r => { r with timer := some s.nextTid })
          nextTid := s.nextTid + 1 }

/-- The data URL built from an acquirer result. -/
def dataUrl (r : AcqResult) : String :=
  let type := match r.contentType with
    | some ct => (ct.splitOn ";").headD ""
    | none => "image/jpeg"
  "data:" ++ type ++ ";base64," ++ r.base64

/-- A `_pollOnce` promise that has settled: the state it leaves and the error
it rejected with, if any. -/
structure Settled where
  state : Helper
  thrown : Option JsError

/-- The `catch` block of `_pollOnce`; it ends normally. -/
def pollCatch (s : Helper) (identifier : String) (now : Int) : Helper × Option JsError :=
  let rec2 := mapGet s.instances identifier
  let s1 :=
    match rec2 with
    | none => { s with logged := s.logged + 1 }
    | some r =>
      if now - r.lastErrorAt > 5000 then
        { s with
          logged := s.logged + 1
          instances := mapUpdate s.instances identifier (fun r => { r with lastErrorAt := now }) }
      else s
  (sendSocketNotification s1 (.STATUS identifier "offline"), none)

/-- The `finally` block of `_pollOnce`. -/
def pollFinally (s : Helper) (identifier : String) : Helper :=
  { s with instances := mapUpdate s.instances identifier (fun r => { r with inProgress := false }) }

/-- The statement `try { body } catch (err) { handler } finally { fin }`: the
state and the error that leaves the statement, if any. -/
def tryCatchFinally {σ : Type} (body : σ → σ × Option JsError)
    (handler : σ → JsError → σ × Option JsError) (fin : σ → σ) (s : σ) : σ × Option JsError :=
  let r := body s
  let r1 := match r.2 with
    | none => r
    | some err => handler r.1 err
  (fin r1.1, r1.2)

/-- The part of `_pollOnce` from the settling of the acquirer on: the rest of
the `try` block (`result` is what the `await` gives or throws), the `catch`
and the `finally` blocks. -/
def pollSettle (s : Helper) (identifier : String) (result : Except JsError AcqResult)
    (now : Int) : Settled :=
  let r := tryCatchFinally
    (fun s => match result with
      | .ok res => (sendSocketNotification s (.SNAPSHOT identifier (dataUrl res) now "online"), none)
      | .error err => (s, some err))
    (fun s _ => pollCatch s identifier now)
    (fun s => pollFinally s identifier) s
  ⟨r.1, r.2⟩

/-- What a call of `_pollOnce` has done when control returns to the event loop:
its promise has settled, or it is suspended on an acquirer. -/
inductive Poll where
  | settled (r : Settled)
  | pending (s : Helper) (a : Acq)

/-- The helper's `_pollOnce (identifier, config)`, up to the `await` on the
acquirer.  The two paths on which no acquirer is awaited from outside, a
snapshot configuration without `url` and a local capture without a
configuration object (reading `config.width` throws), run on to the end. -/
def _pollOnce (strToNum : String → JsNum) (s : Helper) (identifier : String)
    (config : Option Config) (caller : Caller) (now : Int) : Poll :=
  match mapGet s.instances identifier with
  | none => .settled ⟨s, none⟩
  | some rec =>
    if rec.inProgress then .settled ⟨s, none⟩
    else
      let s1 := { s with
        instances := mapUpdate s.instances identifier (fun r => { r with inProgress := true }) }
      let mode := modeOf config
      if mode = .str "local" then
        match config with
        | none =>
          .settled (pollSettle s1 identifier
            (.error ⟨"Cannot read properties of undefined"⟩) now)
        | some _ =>
          let a : Acq := ⟨s1.nextAid, identifier, config, true, .fin 2000, caller⟩
          .pending { s1 with inflight := s1.inflight ++ [a], nextAid := s1.nextAid + 1 } a
      else
        let c := config.getD Config.empty
        let timeoutMs := Math.max (.fin 5000) ((Number strToNum c.offlineTimeout).or (.fin 0))
        if !c.url.truthy then
          .settled (pollSettle s1 identifier
            (.error ⟨"No URL configured for snapshot mode"⟩) now)
        else
          let a : Acq := ⟨s1.nextAid, identifier, config, false, timeoutMs, caller⟩
          .pending { s1 with inflight := s1.inflight ++ [a], nextAid := s1.nextAid + 1 } a

/-- What the caller of `_pollOnce` does with a settled promise:
`_configureInstance` runs `_scheduleNext` in `.finally`, a timer callback runs
it after the `await`, which a rejection would skip. -/
def afterPoll (strToNum : String → JsNum) (caller : Caller) (identifier : String)
    (r : Settled) : Helper :=
  match caller, r.thrown with
  | .configure, _ => _scheduleNext strToNum r.state identifier
  | .timer, none => _scheduleNext strToNum r.state identifier
  | .timer, some _ => r.state

/-- A call of `_pollOnce` together with its caller's continuation, as far as
they run before control returns to the event loop. -/
def pollThen (strToNum : String → JsNum) (s : Helper) (identifier : String)
    (config : Option Config) (caller : Caller) (now : Int) : Helper :=
  match _pollOnce strToNum s identifier config caller now with
  | .settled r => afterPoll strToNum caller identifier r
  | .pending s1 _ => s1

/-- The helper's `_configureInstance (identifier, config)`. -/
def _configureInstance (strToNum : String → JsNum) (s : Helper) (identifier : String)
    (config : Option Config) (now : Int) : Helper :=
  let s1 := match mapGet s.instances identifier with
    | some prev => match prev.timer with
      | some t => clearTimeout s t
      | none => s
    | none => s
  let data : Rec := ⟨s1.nextRid, config, none, false, 0, false⟩
  let s2 := { s1 with
    instances := mapSet s1.instances identifier data
    nextRid := s1.nextRid + 1 }
  let mode := modeOf config
  let refresh := (config.getD Config.empty).refreshSnapshotInterval
  if mode = .str "local" ∨
      (mode = .str "snapshot" ∧ JsNum.gt (Number strToNum refresh) (.fin 0)) then
    pollThen strToNum s2 identifier config .configure now
  else if mode = .str "stream" then
    sendSocketNotification s2 (.STATUS identifier "connecting")
  else s2

/-- The payload of a socket notification sent by the module. -/
structure Payload where
  identifier : String
  config : Option Config
  deriving DecidableEq

/-- The helper's `socketNotificationReceived (notification, payload)`. -/
def socketNotificationReceived (strToNum : String → JsNum) (s : Helper)
    (notification : String) (payload : Option Payload) (now : Int) : Helper :=
  match payload with
  | none => s
  | some p =>
    if p.identifier = "" then s
    else if notification = "CONFIG" then
      _configureInstance strToNum s p.identifier p.config now
    else if notification = "PAUSE" ∨ notification = "RESUME" then
      match mapGet s.instances p.identifier with
      | none => s
      | some state =>
        let paused := decide (notification = "PAUSE")
        let s1 := { s with
          instances := mapUpdate s.instances p.identifier (fun r => { r with paused := paused }) }
        match paused, state.timer with
        | true, some t =>
          let s2 := clearTimeout s1 t
          { s2 with
            instances := mapUpdate s2.instances p.identifier (fun r => { r with timer := none }) }
        | true, none => s1
        | false, some _ => s1
        | false, none =>
          if state.config.isSome then _scheduleNext strToNum s1 p.identifier else s1
    else s

/-- The callback of a timer armed by `_scheduleNext`, run when the timer fires. -/
def timerCallback (strToNum : String → JsNum) (s : Helper) (t : Timer) (now : Int) : Helper :=
  let s1 := { s with
    instances := mapUpdate s.instances t.identifier
      (fun r => if r.rid = t.rid then { r with timer := none } else r) }
  pollThen strToNum s1 t.identifier (some t.config) .timer now

/-- What the event loop of the helper can run. -/
inductive Event where
  | notify (notification : String) (payload : Option Payload) (now : Int)
  | fire (tid : Nat) (now : Int)
  | settle (aid : Nat) (result : Except JsError AcqResult) (now : Int)
  | stop

/-- One turn of the event loop.  A timer fires only while it is armed, and an
acquirer settles only while its acquisition is in flight. -/
def step (strToNum : String → JsNum) (s : Helper) : Event → Helper
  | .notify n p now => socketNotificationReceived strToNum s n p now
  | .fire tid now =>
    match s.timers.find? (fun t => t.tid = tid) with
    | none => s
    | some t => timerCallback strToNum (clearTimeout s tid) t now
  | .settle aid result now =>
    match s.inflight.find? (fun a => a.aid = aid) with
    | none => s
    | some a =>
      let s1 := { s with inflight := s.inflight.eraseP (fun b => b.aid = aid) }
      afterPoll strToNum a.caller a.identifier (pollSettle s1 a.identifier result now)
  | .stop => s.stop

/-- A run of the event loop from a state. -/
def run (strToNum : String → JsNum) (s : Helper) (es : List Event) : Helper :=
  es.foldl (step strToNum) s

/-- The timers armed for an identifier that have neither fired nor been cleared. -/
def pendingTimers (s : Helper) (identifier : String) : List Timer :=
  s.timers.filter (fun t => t.identifier = identifier)

/-- The acquisitions in flight for an identifier. -/
def inFlight (s : Helper) (identifier : String) : List Acq :=
  s.inflight.filter (fun a => a.identifier = identifier)

/-- Every paused record of a table holds no timer. -/
def PausedClear (m : List (String × Rec)) : Prop :=
  ∀ p ∈ m, p.2.paused = true → p.2.timer = none

instance (m : List (String × Rec)) : Decidable (PausedClear m) := by
  unfold PausedClear; infer_instance

/-- The event is a socket notification `CONFIG`. -/
def Event.isConfig : Event → Bool
  | .notify n _ _ => decide (n = "CONFIG")
  | _ => false

/-- What `stop ()` guarantees of a later state `s1` of a helper stopped in the
state `s0`: nothing is configured, no acquisition has been started and no timer
armed since, and what has been sent since was appended, one notification for
each acquisition that has left the set of those in flight. -/
def AfterStop (s0 s1 : Helper) : Prop :=
  s1.instances = [] ∧ s1.nextAid = s0.nextAid ∧ s1.nextTid = s0.nextTid ∧
  s1.inflight.Sublist s0.inflight ∧ s1.timers.Sublist s0.timers ∧
  s0.sent <+: s1.sent ∧
  s1.sent.length + s1.inflight.length = s0.sent.length + s0.inflight.length

instance (s0 s1 : Helper) : Decidable (AfterStop s0 s1) := by
  unfold AfterStop; infer_instance

/-! ## Concrete configurations and notifications -/

/-- A local-capture configuration as the module sends it, with a refresh interval. -/
def localConfig (refresh : ℚ) : Config :=
  { mode := .str "local", url := .str "", width := .num (.fin 640), height := .num (.fin 480),
    refreshSnapshotInterval := .num (.fin refresh), showStatus := .bool true,
    offlineTimeout := .num (.fin 8000) }

/-- A snapshot configuration as the module sends it, with a refresh interval. -/
def snapshotConfig (refresh : ℚ) : Config :=
  { mode := .str "snapshot", url := .str "http://cam.local/snapshot.jpg",
    width := .num (.fin 640), height := .num (.fin 480),
    refreshSnapshotInterval := .num (.fin refresh), showStatus := .bool true,
    offlineTimeout := .num (.fin 8000) }

/-- The notification `CONFIG` for the identifier `cam`. -/
def camConfig (c : Config) (now : Int) : Event :=
  .notify "CONFIG" (some ⟨"cam", some c⟩) now

/-- The notification `PAUSE` for the identifier `cam`. -/
def camPause (now : Int) : Event := .notify "PAUSE" (some ⟨"cam", none⟩) now

/-- The notification `RESUME` for the identifier `cam`. -/
def camResume (now : Int) : Event := .notify "RESUME" (some ⟨"cam", none⟩) now

/-- An acquirer resolving with a JPEG capture. -/
def jpeg : Except JsError AcqResult := .ok ⟨"/9j/4AAQ", some "image/jpeg"⟩

/-- An acquirer rejecting with a timeout. -/
def timedOut : Except JsError AcqResult := .error ⟨"rpicam-jpeg timeout"⟩

/-- A record for a local capture every 1000 ms, with nothing pending. -/
def idleRec : Rec := ⟨0, some (localConfig 1000), none, false, 0, false⟩

/-- A helper holding that record for the identifier `cam`. -/
def idleCam : Helper := { Helper.start with instances := [("cam", idleRec)] }

/-- A string conversion for the concrete runs, none of which converts a string. -/
def noStrings : String → JsNum := fun _ => .nan

/-! ## Runs that show where the code leaves the specification -/

/-- C1: a second `CONFIG` arriving while the acquisition started by the first
is still in flight starts a second acquisition; when both have settled, each
has called `_scheduleNext` on the same record, and two timers (0 and 1) are
armed for the identifier, of which the record only holds the second. -/
theorem C1_two_timers_after_resent_config :
    (pendingTimers (run noStrings Helper.start
        [camConfig (localConfig 1000) 100, camConfig (localConfig 1000) 150,
          .settle 0 jpeg 700, .settle 1 jpeg 750]) "cam").map (fun t => t.tid) = [0, 1] ∧
    (mapGet (run noStrings Helper.start
        [camConfig (localConfig 1000) 100, camConfig (localConfig 1000) 150,
          .settle 0 jpeg 700, .settle 1 jpeg 750]).instances "cam").map (fun r => r.timer)
      = some (some 1) := by
  decide

/-- C2: after a `CONFIG` and a second `CONFIG` for the same identifier before
the first acquisition has settled, two acquisitions (0 and 1) are in flight for
the identifier: the fresh record has `inProgress = false`, so the guard of
`_pollOnce` lets the second one through. -/
theorem C2_two_acquisitions_in_flight :
    (inFlight (run noStrings Helper.start
        [camConfig (localConfig 1000) 100]) "cam").map (fun a => a.aid) = [0] ∧
    (inFlight (run noStrings Helper.start
        [camConfig (localConfig 1000) 100, camConfig (localConfig 1000) 150]) "cam").map
      (fun a => a.aid) = [0, 1] := by
  decide

/-- C3, as stated, fails: an acquisition in flight when `stop ()` runs still
emits its report when it settles, although the identifier has no record any
more; and an acquisition started under a record that a later `CONFIG` has
replaced (record 0, replaced by record 1) still emits its report too. -/
theorem C3_report_after_stop_and_after_replacement :
    (mapGet (run noStrings Helper.start
        [camConfig (localConfig 1000) 100, .stop]).instances "cam" = none ∧
      (run noStrings Helper.start [camConfig (localConfig 1000) 100, .stop]).sent = [] ∧
      (run noStrings Helper.start
        [camConfig (localConfig 1000) 100, .stop, .settle 0 jpeg 700]).sent
        = [.SNAPSHOT "cam" (dataUrl ⟨"/9j/4AAQ", some "image/jpeg"⟩) 700 "online"]) ∧
    ((mapGet (run noStrings Helper.start
        [camConfig (localConfig 1000) 100]).instances "cam").map (fun r => r.rid) = some 0 ∧
      (mapGet (run noStrings Helper.start
        [camConfig (localConfig 1000) 100, camConfig (snapshotConfig 1000) 150]).instances
          "cam").map (fun r => r.rid) = some 1 ∧
      (run noStrings Helper.start
        [camConfig (localConfig 1000) 100, camConfig (snapshotConfig 1000) 150,
          .settle 0 jpeg 700]).sent
        = [.SNAPSHOT "cam" (dataUrl ⟨"/9j/4AAQ", some "image/jpeg"⟩) 700 "online"]) :=
  ⟨⟨rfl, rfl, rfl⟩, rfl, rfl, rfl⟩

/-- C4: with an acquisition in flight and no timer armed (the state right after
`CONFIG`), `PAUSE` followed by `RESUME` arms a timer although the acquisition is
still in flight; when the acquisition settles it arms another, so two timers
are armed where one would have been without the pause and resume. -/
theorem C4_pause_resume_duplicates_chain :
    (pendingTimers (run noStrings Helper.start
        [camConfig (localConfig 1000) 100]) "cam" = [] ∧
      (inFlight (run noStrings Helper.start
        [camConfig (localConfig 1000) 100]) "cam").map (fun a => a.aid) = [0]) ∧
    (pendingTimers (run noStrings Helper.start
        [camConfig (localConfig 1000) 100, .settle 0 jpeg 700]) "cam").map (fun t => t.tid)
      = [0] ∧
    (pendingTimers (run noStrings Helper.start
        [camConfig (localConfig 1000) 100, camPause 200, camResume 210]) "cam").map
      (fun t => t.tid) = [0] ∧
    (pendingTimers (run noStrings Helper.start
        [camConfig (localConfig 1000) 100, camPause 200, camResume 210,
          .settle 0 jpeg 700]) "cam").map (fun t => t.tid) = [0, 1] := by
  decide

/-- C5, as stated, fails at `r = 0`: for a local configuration with refresh
interval 0 the timer armed after the first acquisition has the delay 1000,
not `max(500, 0) = 500`. -/
theorem C5_delay_at_zero_is_1000 :
    (run noStrings Helper.start
        [camConfig (localConfig 0) 100, .settle 0 jpeg 700]).timers.map
      (fun t => (t.config.refreshSnapshotInterval, t.interval))
      = [(.num (.fin 0), .fin 1000)] ∧
    Math.max (.fin 500) (.fin 0) = .fin 500 := by
  decide

/-- C6, as stated, fails at the boundary: with `offlineTimeout = 8000` and the
last report received at `t0 = 1000`, the status check at `t = t0 + 8000 = 9000`
sets "Online", not "Offline". -/
theorem C6_online_at_exact_timeout :
    (((Module.start noStrings "cam" (localConfig 1000)).socketNotificationReceived
        (.SNAPSHOT "cam" "data:image/jpeg;base64,/9j/4AAQ" 1000 "online") 1000).lastPing = 1000) ∧
    (((Module.start noStrings "cam" (localConfig 1000)).socketNotificationReceived
        (.SNAPSHOT "cam" "data:image/jpeg;base64,/9j/4AAQ" 1000 "online") 1000).statusCheck
          noStrings 9000).status = "Online" := by
  decide

/-- C9: a negative width or height is kept by `start ()`: with `width = -5` and
`height = -3` the stored values are `-5` and `-3`, which are not strictly
positive and are not the defaults 640 and 480. -/
theorem C9_negative_size_is_kept :
    (Module.start noStrings "cam"
        { localConfig 1000 with width := .num (.fin (-5)), height := .num (.fin (-3)) }).config.width
      = .num (.fin (-5)) ∧
    (Module.start noStrings "cam"
        { localConfig 1000 with width := .num (.fin (-5)), height := .num (.fin (-3)) }).config.height
      = .num (.fin (-3)) ∧
    JsNum.isPositive (.fin (-5)) = false ∧ JsNum.isPositive (.fin (-3)) = false := by
  decide

/-- C10: for a snapshot configuration with refresh interval 0,
`_configureInstance` starts no polling (no timer, no acquisition, nothing
sent), but a later `PAUSE` and `RESUME` arm a timer through `_scheduleNext`,
and when that timer fires an acquisition starts. -/
theorem C10_resume_polls_unpolled_snapshot :
    ((run noStrings Helper.start [camConfig (snapshotConfig 0) 100]).timers = [] ∧
      (run noStrings Helper.start [camConfig (snapshotConfig 0) 100]).inflight = [] ∧
      (run noStrings Helper.start [camConfig (snapshotConfig 0) 100]).sent = []) ∧
    (pendingTimers (run noStrings Helper.start
        [camConfig (snapshotConfig 0) 100, camPause 200, camResume 300]) "cam").map
      (fun t => (t.tid, t.interval)) = [(0, .fin 1000)] ∧
    (inFlight (run noStrings Helper.start
        [camConfig (snapshotConfig 0) 100, camPause 200, camResume 300, .fire 0 1300]) "cam").map
      (fun a => a.aid) = [0] := by
  decide

/-! ## The delay of an armed timer -/

/-- The interval computed by `_scheduleNext` from a finite refresh interval. -/
theorem interval_of_fin (strToNum : String → JsNum) (r : ℚ) :
    Math.max (.fin 500) ((Number strToNum (.num (.fin r))).or (.fin 1000))
      = .fin (if r = 0 then 1000 else max 500 r) := by
  by_cases h0 : r = 0
  · subst h0
    norm_num [Number, JsNum.or, JsNum.truthy, Math.max, JsNum.lt]
  · by_cases h : (500 : ℚ) < r
    · simp [Number, JsNum.or, JsNum.truthy, Math.max, JsNum.lt, h0, h, le_of_lt h]
    · have h' : r ≤ 500 := not_lt.mp h
      simp [Number, JsNum.or, JsNum.truthy, Math.max, JsNum.lt, h0, h, h']

/-- C5, amended: when the record's configuration holds the non-negative
refresh interval `r`, `_scheduleNext` either arms nothing or arms exactly one
timer, whose delay is `max(500, r)` for `r > 0` and 1000 for `r = 0`. -/
theorem C5_delay_of_armed_timer (strToNum : String → JsNum) (s : Helper) (identifier : String)
    (inst : Rec) (c : Config) (r : ℚ)
    (hget : mapGet s.instances identifier = some inst) (hc : inst.config = some c)
    (hr : c.refreshSnapshotInterval = .num (.fin r)) (_h0 : 0 ≤ r) :
    _scheduleNext strToNum s identifier = s ∨
    (_scheduleNext strToNum s identifier).timers
      = s.timers ++ [⟨s.nextTid, identifier, inst.rid, c,
          .fin (if r = 0 then 1000 else max 500 r)⟩] := by
  unfold _scheduleNext
  rw [hget]
  by_cases hp : inst.paused = true
  · left; simp [hp]
  · by_cases hm : (c.mode.or (.str "local")) ≠ .str "local" ∧
        (c.mode.or (.str "local")) ≠ .str "snapshot"
    · left; simp [hp, hc, hm]
    · right
      have hi := interval_of_fin strToNum r
      simp only [hc, Option.getD_some, hr] at hm ⊢
      simp [hp, hm, hi]

/-- A record with refresh interval 250 gets a timer of delay 500. -/
theorem C5_delay_of_armed_timer_witness :
    _scheduleNext noStrings
        { Helper.start with instances := [("cam", ⟨0, some (localConfig 250), none, false, 0, false⟩)] }
        "cam"
      = { Helper.start with
          instances := [("cam", ⟨0, some (localConfig 250), none, false, 0, false⟩)] } ∨
    (_scheduleNext noStrings
        { Helper.start with instances := [("cam", ⟨0, some (localConfig 250), none, false, 0, false⟩)] }
        "cam").timers
      = [] ++ [⟨0, "cam", 0, localConfig 250, .fin (if (250 : ℚ) = 0 then 1000 else max 500 250)⟩] :=
  C5_delay_of_armed_timer noStrings
    { Helper.start with instances := [("cam", ⟨0, some (localConfig 250), none, false, 0, false⟩)] }
    "cam" ⟨0, some (localConfig 250), none, false, 0, false⟩ (localConfig 250) 250
    rfl rfl rfl (by norm_num)

/-! ## The derived status -/

/-- C6, amended: with `showStatus` on and a positive `offlineTimeout = T`, the
status check sets "Connecting..." while `lastPing = 0`; otherwise, with `t0`
the value of `lastPing`, it sets "Online" for every `t` with
`t0 <= t <= t0 + T` (the bound `t0 + T` included) and "Offline" for every
`t > t0 + T`. -/
theorem C6_status_check (strToNum : String → JsNum) (m : Module) (T : ℚ) (t : Int)
    (hshow : m.config.showStatus.truthy = true)
    (hT : m.config.offlineTimeout = .num (.fin T)) (hpos : 0 < T) :
    (m.lastPing = 0 → (m.statusCheck strToNum t).status = "Connecting...") ∧
    (m.lastPing ≠ 0 → m.lastPing ≤ t → (t : ℚ) ≤ (m.lastPing : ℚ) + T →
      (m.statusCheck strToNum t).status = "Online") ∧
    (m.lastPing ≠ 0 → (m.lastPing : ℚ) + T < (t : ℚ) →
      (m.statusCheck strToNum t).status = "Offline") := by
  have hle : JsNum.le (Number strToNum m.config.offlineTimeout) (.fin 0) = false := by
    simp [hT, Number, JsNum.le, JsNum.lt, hpos]
  refine ⟨?_, ?_, ?_⟩
  · intro h0
    unfold Module.statusCheck
    simp only [hshow, hle, h0]
    by_cases hm : m.config.mode = .str "stream" <;> simp [hm, Module._setStatus]
  · intro h0 _ hub
    have hgt : JsNum.gt (.fin ((t - m.lastPing : Int) : ℚ))
        (Number strToNum m.config.offlineTimeout) = false := by
      simp only [hT, Number, JsNum.gt, JsNum.lt, decide_eq_false_iff_not, not_lt]
      push_cast; linarith
    unfold Module.statusCheck
    simp only [hshow, hle, h0, hgt]
    by_cases hm : m.config.mode = .str "stream" <;> simp [hm, Module._setStatus]
  · intro h0 hlb
    have hgt : JsNum.gt (.fin ((t - m.lastPing : Int) : ℚ))
        (Number strToNum m.config.offlineTimeout) = true := by
      simp only [hT, Number, JsNum.gt, JsNum.lt, decide_eq_true_eq]
      push_cast; linarith
    unfold Module.statusCheck
    simp only [hshow, hle, h0, hgt]
    by_cases hm : m.config.mode = .str "stream" <;> simp [hm, Module._setStatus]

/-- The status check at 9000 with `offlineTimeout = 8000` and a report at 1000. -/
theorem C6_status_check_witness :
    (⟨"cam", localConfig 1000, none, "online", 1000⟩ : Module).config.showStatus.truthy = true ∧
    (0 : ℚ) < 8000 ∧
    (((⟨"cam", localConfig 1000, none, "online", 1000⟩ : Module).lastPing = 0 →
        ((⟨"cam", localConfig 1000, none, "online", 1000⟩ : Module).statusCheck noStrings
          9000).status = "Connecting...") ∧
      ((⟨"cam", localConfig 1000, none, "online", 1000⟩ : Module).lastPing ≠ 0 →
        (⟨"cam", localConfig 1000, none, "online", 1000⟩ : Module).lastPing ≤ 9000 →
        ((9000 : Int) : ℚ)
          ≤ (((⟨"cam", localConfig 1000, none, "online", 1000⟩ : Module).lastPing : Int) : ℚ) + 8000 →
        ((⟨"cam", localConfig 1000, none, "online", 1000⟩ : Module).statusCheck noStrings
          9000).status = "Online") ∧
      ((⟨"cam", localConfig 1000, none, "online", 1000⟩ : Module).lastPing ≠ 0 →
        (((⟨"cam", localConfig 1000, none, "online", 1000⟩ : Module).lastPing : Int) : ℚ) + 8000
          < ((9000 : Int) : ℚ) →
        ((⟨"cam", localConfig 1000, none, "online", 1000⟩ : Module).statusCheck noStrings
          9000).status = "Offline")) :=
  ⟨rfl, by norm_num,
    C6_status_check noStrings ⟨"cam", localConfig 1000, none, "online", 1000⟩ 8000 9000 rfl rfl
      (by norm_num)⟩

/-! ## One report per acquisition -/

/-- The `catch` block sends one `STATUS` "offline" and ends normally. -/
theorem pollCatch_spec (s : Helper) (identifier : String) (now : Int) :
    (pollCatch s identifier now).2 = none ∧
    (pollCatch s identifier now).1.sent = s.sent ++ [.STATUS identifier "offline"] ∧
    (pollCatch s identifier now).1.inflight = s.inflight ∧
    (pollCatch s identifier now).1.timers = s.timers := by
  unfold pollCatch
  cases mapGet s.instances identifier with
  | none => simp [sendSocketNotification]
  | some r =>
    by_cases h : now - r.lastErrorAt > 5000 <;> simp [sendSocketNotification, h]

/-- A settling `_pollOnce` never rejects. -/
theorem pollSettle_thrown (s : Helper) (identifier : String)
    (result : Except JsError AcqResult) (now : Int) :
    (pollSettle s identifier result now).thrown = none := by
  cases result with
  | ok res => simp [pollSettle, tryCatchFinally]
  | error err => simp [pollSettle, tryCatchFinally, (pollCatch_spec s identifier now).1]

/-- A settling `_pollOnce` sends exactly one notification: `SNAPSHOT` when the
acquirer resolved, `STATUS` "offline" when it rejected. -/
theorem pollSettle_sent (s : Helper) (identifier : String)
    (result : Except JsError AcqResult) (now : Int) :
    (pollSettle s identifier result now).state.sent
      = s.sent ++ [match result with
          | .ok res => .SNAPSHOT identifier (dataUrl res) now "online"
          | .error _ => .STATUS identifier "offline"] := by
  cases result with
  | ok res => simp [pollSettle, tryCatchFinally, pollFinally, sendSocketNotification]
  | error err =>
    simp [pollSettle, tryCatchFinally, pollFinally, (pollCatch_spec s identifier now).2.1]

/-- After a settled `_pollOnce` either caller runs `_scheduleNext`. -/
theorem afterPoll_pollSettle (strToNum : String → JsNum) (caller : Caller) (s : Helper)
    (identifier : String) (result : Except JsError AcqResult) (now : Int) :
    afterPoll strToNum caller identifier (pollSettle s identifier result now)
      = _scheduleNext strToNum (pollSettle s identifier result now).state identifier := by
  have h := pollSettle_thrown s identifier result now
  cases caller <;> simp [afterPoll, h]

theorem pollOnce_started (strToNum : String → JsNum) (s : Helper) (identifier : String)
    (config : Option Config) (caller : Caller) (now : Int) (rec : Rec)
    (hget : mapGet s.instances identifier = some rec) (hfree : rec.inProgress = false) :
    _pollOnce strToNum s identifier config caller now
      = (let s1 : Helper := { s with
            instances := mapUpdate s.instances identifier (fun r => { r with inProgress := true }) }
        if modeOf config = .str "local" then
          match config with
          | none =>
            .settled (pollSettle s1 identifier
              (.error ⟨"Cannot read properties of undefined"⟩) now)
          | some _ =>
            .pending { s1 with
                inflight := s1.inflight ++ [⟨s1.nextAid, identifier, config, true, .fin 2000, caller⟩]
                nextAid := s1.nextAid + 1 }
              ⟨s1.nextAid, identifier, config, true, .fin 2000, caller⟩
        else
          if !(config.getD Config.empty).url.truthy then
            .settled (pollSettle s1 identifier
              (.error ⟨"No URL configured for snapshot mode"⟩) now)
          else
            .pending { s1 with
                inflight := s1.inflight ++ [⟨s1.nextAid, identifier, config, false,
                  Math.max (.fin 5000)
                    ((Number strToNum (config.getD Config.empty).offlineTimeout).or (.fin 0)),
                  caller⟩]
                nextAid := s1.nextAid + 1 }
              ⟨s1.nextAid, identifier, config, false,
                Math.max (.fin 5000)
                  ((Number strToNum (config.getD Config.empty).offlineTimeout).or (.fin 0)),
                caller⟩) := by
  unfold _pollOnce
  rw [hget]
  simp only [hfree, Bool.false_eq_true, if_false]

theorem pollSettle_inflight (s : Helper) (identifier : String)
    (result : Except JsError AcqResult) (now : Int) :
    (pollSettle s identifier result now).state.inflight = s.inflight := by
  cases result with
  | ok res => simp [pollSettle, tryCatchFinally, pollFinally, sendSocketNotification]
  | error err =>
    simp [pollSettle, tryCatchFinally, pollFinally, (pollCatch_spec s identifier now).2.2.1]

/-- C7: a `_pollOnce` call that finds a record with `inProgress = false`
is suspended on its acquirer, having sent nothing, when the mode is local and
there is a configuration object (capture bound 2000 ms) or when the mode is not
local and `url` is truthy (bound `max(5000, offlineTimeout)`); it settles at
once, having sent exactly one `STATUS` "offline", when the mode is not local and
`url` is empty (snapshot mode without url) or when there is no configuration
object.  Whatever the state in which the acquirer settles, the call then sends
exactly one notification: if the acquirer resolved, `SNAPSHOT` with status
"online" and the image as the data URL made of the content type up to its first
`;` (or `image/jpeg`) and the base64 bytes; if it rejected, for whatever
reason, `STATUS` "offline"; a `SNAPSHOT` is sent if and only if the acquirer
resolved and a `STATUS` "offline" if and only if it rejected.  In every case the
promise is fulfilled, never rejected, and the caller, `_configureInstance` or a
timer callback, goes on to `_scheduleNext`. -/
theorem C7_one_report_per_acquisition (strToNum : String → JsNum) (s : Helper)
    (identifier : String) (config : Option Config) (caller : Caller) (now : Int) (rec : Rec)
    (hget : mapGet s.instances identifier = some rec) (hfree : rec.inProgress = false) :
    (∀ c : Config, config = some c → modeOf config = .str "local" →
      ∃ s1 : Helper,
        _pollOnce strToNum s identifier config caller now
          = .pending s1 ⟨s.nextAid, identifier, some c, true, .fin 2000, caller⟩ ∧
        s1.sent = s.sent ∧
        s1.inflight = s.inflight ++ [⟨s.nextAid, identifier, some c, true, .fin 2000, caller⟩]) ∧
    (∀ c : Config, config = some c → modeOf config ≠ .str "local" → c.url.truthy = true →
      ∃ s1 : Helper,
        _pollOnce strToNum s identifier config caller now
          = .pending s1 ⟨s.nextAid, identifier, some c, false,
              Math.max (.fin 5000) ((Number strToNum c.offlineTimeout).or (.fin 0)), caller⟩ ∧
        s1.sent = s.sent ∧
        s1.inflight = s.inflight ++ [⟨s.nextAid, identifier, some c, false,
              Math.max (.fin 5000) ((Number strToNum c.offlineTimeout).or (.fin 0)), caller⟩]) ∧
    ((config = none ∨
        ∃ c : Config, config = some c ∧ modeOf config ≠ .str "local" ∧ c.url.truthy = false) →
      ∃ r : Settled,
        _pollOnce strToNum s identifier config caller now = .settled r ∧
        r.thrown = none ∧
        r.state.sent = s.sent ++ [.STATUS identifier "offline"] ∧
        r.state.inflight = s.inflight ∧
        afterPoll strToNum caller identifier r = _scheduleNext strToNum r.state identifier) ∧
    (∀ (s2 : Helper) (res : AcqResult) (t : Int) (who : Caller),
      (pollSettle s2 identifier (.ok res) t).thrown = none ∧
      (pollSettle s2 identifier (.ok res) t).state.sent
        = s2.sent ++ [.SNAPSHOT identifier
            ("data:" ++ (match res.contentType with
                | some ct => (ct.splitOn ";").headD ""
                | none => "image/jpeg") ++ ";base64," ++ res.base64) t "online"] ∧
      afterPoll strToNum who identifier (pollSettle s2 identifier (.ok res) t)
        = _scheduleNext strToNum (pollSettle s2 identifier (.ok res) t).state identifier) ∧
    (∀ (s2 : Helper) (err : JsError) (t : Int) (who : Caller),
      (pollSettle s2 identifier (.error err) t).thrown = none ∧
      (pollSettle s2 identifier (.error err) t).state.sent
        = s2.sent ++ [.STATUS identifier "offline"] ∧
      afterPoll strToNum who identifier (pollSettle s2 identifier (.error err) t)
        = _scheduleNext strToNum (pollSettle s2 identifier (.error err) t).state identifier) ∧
    (∀ (s2 : Helper) (result : Except JsError AcqResult) (t : Int),
      ((∃ image : String, (pollSettle s2 identifier result t).state.sent
          = s2.sent ++ [.SNAPSHOT identifier image t "online"]) ↔ ∃ res, result = .ok res) ∧
      ((pollSettle s2 identifier result t).state.sent = s2.sent ++ [.STATUS identifier "offline"]
        ↔ ∃ err, result = .error err)) ∧
    dataUrl ⟨"/9j/4AAQ", some "image/jpeg; charset=binary"⟩ = "data:image/jpeg;base64,/9j/4AAQ" := by
  have hstart := pollOnce_started strToNum s identifier config caller now rec hget hfree
  refine ⟨?_, ?_, ?_, ?_, ?_, ?_, ?_⟩
  · intro c hc hm
    rw [hstart]
    subst hc
    simp only [hm, if_true]
    exact ⟨_, rfl, rfl, rfl⟩
  · intro c hc hm hu
    rw [hstart]
    subst hc
    simp only [hm, if_false, Option.getD_some, hu, Bool.not_true, Bool.false_eq_true]
    exact ⟨_, rfl, rfl, rfl⟩
  · intro h
    rw [hstart]
    rcases h with hc | ⟨c, hc, hm, hu⟩
    · subst hc
      have hm : modeOf (none : Option Config) = .str "local" := rfl
      simp only [hm, if_true]
      refine ⟨_, rfl, pollSettle_thrown _ _ _ _, ?_, ?_, afterPoll_pollSettle _ _ _ _ _ _⟩
      · rw [pollSettle_sent]
      · rw [pollSettle_inflight]
    · subst hc
      simp only [hm, if_false, Option.getD_some, hu, Bool.not_false, if_true]
      refine ⟨_, rfl, pollSettle_thrown _ _ _ _, ?_, ?_, afterPoll_pollSettle _ _ _ _ _ _⟩
      · rw [pollSettle_sent]
      · rw [pollSettle_inflight]
  · intro s2 res t who
    exact ⟨pollSettle_thrown _ _ _ _, pollSettle_sent _ _ _ _,
      afterPoll_pollSettle _ _ _ _ _ _⟩
  · intro s2 err t who
    exact ⟨pollSettle_thrown _ _ _ _, pollSettle_sent _ _ _ _,
      afterPoll_pollSettle _ _ _ _ _ _⟩
  · intro s2 result t
    rw [pollSettle_sent]
    cases result with
    | ok res =>
      refine ⟨⟨fun _ => ⟨res, rfl⟩, fun _ => ⟨dataUrl res, rfl⟩⟩, ?_⟩
      constructor
      · intro h
        have h1 := List.append_cancel_left h
        simp at h1
      · rintro ⟨err, herr⟩
        cases herr
    | error err =>
      refine ⟨?_, ⟨fun _ => ⟨err, rfl⟩, fun _ => rfl⟩⟩
      constructor
      · rintro ⟨image, h⟩
        have h1 := List.append_cancel_left h
        simp at h1
      · rintro ⟨res, hres⟩
        cases hres
  · with_unfolding_all decide

/-- The poll of a timer callback on a record that is not in progress. -/
theorem C7_one_report_per_acquisition_witness :
    mapGet idleCam.instances "cam" = some idleRec ∧
    idleRec.inProgress = false ∧
    ((∀ c : Config, (some (localConfig 1000)) = some c → modeOf (some (localConfig 1000)) = .str "local" →
        ∃ s1 : Helper,
          _pollOnce noStrings idleCam "cam" (some (localConfig 1000)) Caller.timer 1100
            = .pending s1 ⟨idleCam.nextAid, "cam", some c, true, .fin 2000, Caller.timer⟩ ∧
          s1.sent = idleCam.sent ∧
          s1.inflight = idleCam.inflight ++ [⟨idleCam.nextAid, "cam", some c, true, .fin 2000, Caller.timer⟩]) ∧
      (∀ c : Config, (some (localConfig 1000)) = some c → modeOf (some (localConfig 1000)) ≠ .str "local" → c.url.truthy = true →
        ∃ s1 : Helper,
          _pollOnce noStrings idleCam "cam" (some (localConfig 1000)) Caller.timer 1100
            = .pending s1 ⟨idleCam.nextAid, "cam", some c, false,
                Math.max (.fin 5000) ((Number noStrings c.offlineTimeout).or (.fin 0)), Caller.timer⟩ ∧
          s1.sent = idleCam.sent ∧
          s1.inflight = idleCam.inflight ++ [⟨idleCam.nextAid, "cam", some c, false,
                Math.max (.fin 5000) ((Number noStrings c.offlineTimeout).or (.fin 0)), Caller.timer⟩]) ∧
      (((some (localConfig 1000)) = none ∨
          ∃ c : Config, (some (localConfig 1000)) = some c ∧ modeOf (some (localConfig 1000)) ≠ .str "local" ∧ c.url.truthy = false) →
        ∃ r : Settled,
          _pollOnce noStrings idleCam "cam" (some (localConfig 1000)) Caller.timer 1100 = .settled r ∧
          r.thrown = none ∧
          r.state.sent = idleCam.sent ++ [.STATUS "cam" "offline"] ∧
          r.state.inflight = idleCam.inflight ∧
          afterPoll noStrings Caller.timer "cam" r = _scheduleNext noStrings r.state "cam") ∧
      (∀ (s2 : Helper) (res : AcqResult) (t : Int) (who : Caller),
        (pollSettle s2 "cam" (.ok res) t).thrown = none ∧
        (pollSettle s2 "cam" (.ok res) t).state.sent
          = s2.sent ++ [.SNAPSHOT "cam"
              ("data:" ++ (match res.contentType with
                  | some ct => (ct.splitOn ";").headD ""
                  | none => "image/jpeg") ++ ";base64," ++ res.base64) t "online"] ∧
        afterPoll noStrings who "cam" (pollSettle s2 "cam" (.ok res) t)
          = _scheduleNext noStrings (pollSettle s2 "cam" (.ok res) t).state "cam") ∧
      (∀ (s2 : Helper) (err : JsError) (t : Int) (who : Caller),
        (pollSettle s2 "cam" (.error err) t).thrown = none ∧
        (pollSettle s2 "cam" (.error err) t).state.sent
          = s2.sent ++ [.STATUS "cam" "offline"] ∧
        afterPoll noStrings who "cam" (pollSettle s2 "cam" (.error err) t)
          = _scheduleNext noStrings (pollSettle s2 "cam" (.error err) t).state "cam") ∧
      (∀ (s2 : Helper) (result : Except JsError AcqResult) (t : Int),
        ((∃ image : String, (pollSettle s2 "cam" result t).state.sent
            = s2.sent ++ [.SNAPSHOT "cam" image t "online"]) ↔ ∃ res, result = .ok res) ∧
        ((pollSettle s2 "cam" result t).state.sent = s2.sent ++ [.STATUS "cam" "offline"]
          ↔ ∃ err, result = .error err)) ∧
      dataUrl ⟨"/9j/4AAQ", some "image/jpeg; charset=binary"⟩ = "data:image/jpeg;base64,/9j/4AAQ") :=
  ⟨rfl, rfl,
    C7_one_report_per_acquisition noStrings idleCam "cam" (some (localConfig 1000)) Caller.timer
      1100 idleRec rfl rfl⟩

/-! ## A paused record holds no timer -/

theorem pausedClear_mapUpdate (m : List (String × Rec)) (id : String) (f : Rec → Rec)
    (hm : PausedClear m)
    (hf : ∀ r, mapGet m id = some r → (f r).paused = true → (f r).timer = none) :
    PausedClear (mapUpdate m id f) := by
  induction m with
  | nil => simpa [mapUpdate] using hm
  | cons p m ih =>
    obtain ⟨k, r⟩ := p
    by_cases hk : k = id
    · intro q hq
      simp only [mapUpdate, hk, if_true, List.mem_cons] at hq
      rcases hq with rfl | hq
      · exact hf r (by simp [mapGet, hk])
      · exact hm q (List.mem_cons_of_mem _ hq)
    · intro q hq
      simp only [mapUpdate, hk, if_false, List.mem_cons] at hq
      rcases hq with rfl | hq
      · exact hm (k, r) (List.mem_cons_self _ _)
      · refine ih (fun q hq => hm q (List.mem_cons_of_mem _ hq)) ?_ q hq
        intro r' hr'
        exact hf r' (by simpa [mapGet, hk] using hr')

theorem pausedClear_mapUpdate_of_same (m : List (String × Rec)) (id : String) (f : Rec → Rec)
    (hm : PausedClear m)
    (hf : ∀ r, (f r).paused = r.paused ∧ (f r).timer = r.timer) :
    PausedClear (mapUpdate m id f) := by
  induction m with
  | nil => simpa [mapUpdate] using hm
  | cons p m ih =>
    obtain ⟨k, r⟩ := p
    have hr := hm (k, r) (List.mem_cons_self _ _)
    have hm' : PausedClear m := fun q hq => hm q (List.mem_cons_of_mem _ hq)
    by_cases hk : k = id
    · intro q hq
      simp only [mapUpdate, hk, if_true, List.mem_cons] at hq
      rcases hq with rfl | hq
      · intro hp
        rw [(hf r).2]
        exact hr (by rw [← (hf r).1]; exact hp)
      · exact hm' q hq
    · intro q hq
      simp only [mapUpdate, hk, if_false, List.mem_cons] at hq
      rcases hq with rfl | hq
      · exact hr
      · exact ih hm' q hq

theorem pausedClear_mapSet (m : List (String × Rec)) (id : String) (r : Rec)
    (hm : PausedClear m) (hr : r.paused = true → r.timer = none) :
    PausedClear (mapSet m id r) := by
  induction m with
  | nil =>
    intro q hq
    simp only [mapSet, List.mem_singleton] at hq
    subst hq; exact hr
  | cons p m ih =>
    obtain ⟨k, r0⟩ := p
    have hm' : PausedClear m := fun q hq => hm q (List.mem_cons_of_mem _ hq)
    by_cases hk : k = id
    · intro q hq
      simp only [mapSet, hk, if_true, List.mem_cons] at hq
      rcases hq with rfl | hq
      · exact hr
      · exact hm' q hq
    · intro q hq
      simp only [mapSet, hk, if_false, List.mem_cons] at hq
      rcases hq with rfl | hq
      · exact hm (k, r0) (List.mem_cons_self _ _)
      · exact ih hm' q hq

theorem mapGet_mem (m : List (String × Rec)) (id : String) (r : Rec)
    (h : mapGet m id = some r) : (id, r) ∈ m := by
  induction m with
  | nil => simp [mapGet] at h
  | cons q m ih =>
    obtain ⟨k, r0⟩ := q
    by_cases hk : k = id
    · simp only [mapGet, hk, if_true, Option.some.injEq] at h
      subst h; subst hk
      exact List.mem_cons_self _ _
    · simp only [mapGet, hk, if_false] at h
      exact List.mem_cons_of_mem _ (ih h)

theorem mapUpdate_mapUpdate (m : List (String × Rec)) (id : String) (f g : Rec → Rec) :
    mapUpdate (mapUpdate m id f) id g = mapUpdate m id (fun r => g (f r)) := by
  induction m with
  | nil => rfl
  | cons p m ih =>
    obtain ⟨k, r⟩ := p
    by_cases hk : k = id <;> simp [mapUpdate, hk, ih]

theorem clearTimeout_instances (s : Helper) (t : Nat) :
    (clearTimeout s t).instances = s.instances := rfl

theorem scheduleNext_pausedClear (strToNum : String → JsNum) (s : Helper) (identifier : String)
    (h : PausedClear s.instances) :
    PausedClear (_scheduleNext strToNum s identifier).instances := by
  unfold _scheduleNext
  cases hget : mapGet s.instances identifier with
  | none => simpa using h
  | some inst =>
    by_cases hp : inst.paused = true
    · simpa [hp] using h
    · simp only [hp, Bool.false_eq_true, if_false]
      split
      · exact h
      · apply pausedClear_mapUpdate _ _ _ h
        intro r hr hpr
        rw [hget] at hr
        cases hr
        exact absurd hpr hp

theorem pollSettle_pausedClear (s : Helper) (identifier : String)
    (result : Except JsError AcqResult) (now : Int) (h : PausedClear s.instances) :
    PausedClear (pollSettle s identifier result now).state.instances := by
  have hfin : ∀ s' : Helper, PausedClear s'.instances →
      PausedClear (pollFinally s' identifier).instances := by
    intro s' hs'
    exact pausedClear_mapUpdate_of_same _ _ _ hs' (fun r => ⟨rfl, rfl⟩)
  cases result with
  | ok res =>
    simp only [pollSettle, tryCatchFinally]
    exact hfin _ h
  | error err =>
    simp only [pollSettle, tryCatchFinally]
    apply hfin
    unfold pollCatch
    cases mapGet s.instances identifier with
    | none => simpa [sendSocketNotification] using h
    | some r =>
      by_cases hl : now - r.lastErrorAt > 5000
      · simp only [hl, if_true, sendSocketNotification]
        exact pausedClear_mapUpdate_of_same _ _ _ h (fun r => ⟨rfl, rfl⟩)
      · simpa [hl, sendSocketNotification] using h

theorem afterPoll_pausedClear (strToNum : String → JsNum) (caller : Caller)
    (identifier : String) (r : Settled) (h : PausedClear r.state.instances) :
    PausedClear (afterPoll strToNum caller identifier r).instances := by
  unfold afterPoll
  split
  · exact scheduleNext_pausedClear _ _ _ h
  · exact scheduleNext_pausedClear _ _ _ h
  · exact h

theorem pollThen_pausedClear (strToNum : String → JsNum) (s : Helper) (identifier : String)
    (config : Option Config) (caller : Caller) (now : Int) (h : PausedClear s.instances) :
    PausedClear (pollThen strToNum s identifier config caller now).instances := by
  have hin : PausedClear
      (mapUpdate s.instances identifier (fun r => { r with inProgress := true })) :=
    pausedClear_mapUpdate_of_same _ _ _ h (fun r => ⟨rfl, rfl⟩)
  unfold pollThen _pollOnce
  cases mapGet s.instances identifier with
  | none => exact afterPoll_pausedClear _ _ _ _ h
  | some rec =>
    by_cases hp : rec.inProgress = true
    · simp only [hp, if_true]
      exact afterPoll_pausedClear _ _ _ _ h
    · simp only [hp, Bool.false_eq_true, if_false]
      by_cases hm : modeOf config = .str "local"
      · simp only [hm, if_true]
        cases config with
        | none =>
          exact afterPoll_pausedClear _ _ _ _ (pollSettle_pausedClear _ _ _ _ hin)
        | some c => exact hin
      · simp only [hm, if_false]
        by_cases hu : (config.getD Config.empty).url.truthy = true
        · simp only [hu, Bool.not_true, Bool.false_eq_true, if_false]
          exact hin
        · simp only [hu, Bool.not_false, if_true]
          exact afterPoll_pausedClear _ _ _ _ (pollSettle_pausedClear _ _ _ _ hin)

theorem configureInstance_pausedClear (strToNum : String → JsNum) (s : Helper)
    (identifier : String) (config : Option Config) (now : Int) (h : PausedClear s.instances) :
    PausedClear (_configureInstance strToNum s identifier config now).instances := by
  have h1 : PausedClear
      (match mapGet s.instances identifier with
        | some prev => match prev.timer with
          | some t => clearTimeout s t
          | none => s
        | none => s).instances := by
    cases mapGet s.instances identifier with
    | none => exact h
    | some prev =>
      simp only
      split <;> exact h
  unfold _configureInstance
  simp only
  split
  · apply pollThen_pausedClear
    exact pausedClear_mapSet _ _ _ h1 (fun hp => rfl)
  · split
    · exact pausedClear_mapSet _ _ _ h1 (fun hp => rfl)
    · exact pausedClear_mapSet _ _ _ h1 (fun hp => rfl)

theorem socketNotificationReceived_pausedClear (strToNum : String → JsNum) (s : Helper)
    (notification : String) (payload : Option Payload) (now : Int)
    (h : PausedClear s.instances) :
    PausedClear (socketNotificationReceived strToNum s notification payload now).instances := by
  unfold socketNotificationReceived
  cases payload with
  | none => exact h
  | some p =>
    simp only
    split
    · exact h
    · split
      · exact configureInstance_pausedClear _ _ _ _ _ h
      · split
        · cases hget : mapGet s.instances p.identifier with
          | none => exact h
          | some state =>
            simp only
            by_cases hpz : notification = "PAUSE"
            · cases ht : state.timer with
              | none =>
                simp only [hpz, decide_True]
                apply pausedClear_mapUpdate _ _ _ h
                intro r hr _
                rw [hget] at hr
                cases hr
                exact ht
              | some t =>
                simp only [hpz, decide_True, clearTimeout_instances, mapUpdate_mapUpdate]
                apply pausedClear_mapUpdate _ _ _ h
                intro r _ _
                rfl
            · have hfalse : PausedClear
                  (mapUpdate s.instances p.identifier (fun r => { r with paused := false })) := by
                apply pausedClear_mapUpdate _ _ _ h
                intro r _ hp
                exact absurd hp (by simp)
              cases ht : state.timer with
              | none =>
                simp only [hpz, decide_False]
                split
                · exact scheduleNext_pausedClear _ _ _ hfalse
                · exact hfalse
              | some t =>
                simp only [hpz, decide_False]
                exact hfalse
        · exact h

theorem stop_instances (s : Helper) : s.stop.instances = [] := rfl

theorem step_pausedClear (strToNum : String → JsNum) (s : Helper) (e : Event)
    (h : PausedClear s.instances) : PausedClear (step strToNum s e).instances := by
  cases e with
  | notify n p now => exact socketNotificationReceived_pausedClear _ _ _ _ _ h
  | fire tid now =>
    simp only [step]
    cases s.timers.find? (fun t => t.tid = tid) with
    | none => exact h
    | some t =>
      simp only [timerCallback]
      apply pollThen_pausedClear
      apply pausedClear_mapUpdate _ _ _ h
      intro r hr hp
      by_cases hrid : r.rid = t.rid
      · simp [hrid]
      · simp only [hrid, if_false] at hp ⊢
        exact h _ (mapGet_mem _ _ _ hr) hp
  | settle aid result now =>
    simp only [step]
    cases s.inflight.find? (fun a => a.aid = aid) with
    | none => exact h
    | some a =>
      exact afterPoll_pausedClear _ _ _ _ (pollSettle_pausedClear _ _ _ _ h)
  | stop =>
    intro p hp
    simp [step, stop_instances] at hp

theorem run_pausedClear (strToNum : String → JsNum) (es : List Event) (s : Helper)
    (h : PausedClear s.instances) : PausedClear (run strToNum s es).instances := by
  induction es generalizing s with
  | nil => exact h
  | cons e es ih => exact ih _ (step_pausedClear _ _ _ h)

/-- C8: in every state the helper reaches from `start ()` by socket
notifications (`CONFIG`, `PAUSE`, `RESUME` or any other), timer fires, acquirer
settlings and `stop ()`, in any order, every record of the instance table with
`paused = true` has `timer` equal to null. -/
theorem C8_paused_has_no_timer (strToNum : String → JsNum) (es : List Event)
    (p : String × Rec) (hmem : p ∈ (run strToNum Helper.start es).instances)
    (hpaused : p.2.paused = true) : p.2.timer = none :=
  run_pausedClear strToNum es Helper.start (fun q hq => by simp [Helper.start] at hq) p hmem
    hpaused

/-- A pause while the timer of the first cycle is armed. -/
theorem C8_paused_has_no_timer_witness :
    (("cam", ⟨0, some (localConfig 1000), none, true, 0, false⟩) : String × Rec)
      ∈ (run noStrings Helper.start
          [camConfig (localConfig 1000) 100, .settle 0 jpeg 700, camPause 900]).instances ∧
    (⟨0, some (localConfig 1000), none, true, 0, false⟩ : Rec).paused = true ∧
    (⟨0, some (localConfig 1000), none, true, 0, false⟩ : Rec).timer = none :=
  ⟨by decide, rfl,
    C8_paused_has_no_timer noStrings
      [camConfig (localConfig 1000) 100, .settle 0 jpeg 700, camPause 900]
      ("cam", ⟨0, some (localConfig 1000), none, true, 0, false⟩) (by decide) rfl⟩

/-! ## After `stop ()` -/

theorem scheduleNext_nil (strToNum : String → JsNum) (s : Helper) (identifier : String)
    (h : s.instances = []) : _scheduleNext strToNum s identifier = s := by
  simp [_scheduleNext, h, mapGet]

theorem scheduleNext_sent (strToNum : String → JsNum) (s : Helper) (identifier : String) :
    (_scheduleNext strToNum s identifier).sent = s.sent := by
  unfold _scheduleNext
  cases mapGet s.instances identifier with
  | none => rfl
  | some inst =>
    by_cases hp : inst.paused = true
    · simp [hp]
    · by_cases hm : ((inst.config.getD Config.empty).mode.or (.str "local")) ≠ .str "local" ∧
          ((inst.config.getD Config.empty).mode.or (.str "local")) ≠ .str "snapshot"
      · simp [hp, hm]
      · simp [hp, hm]

theorem stop_fold (l : List (String × Rec)) (acc : Helper) :
    (l.foldl (fun acc p => match p.2.timer with
        | some t => clearTimeout acc t
        | none => acc) acc).inflight = acc.inflight ∧
    (l.foldl (fun acc p => match p.2.timer with
        | some t => clearTimeout acc t
        | none => acc) acc).sent = acc.sent ∧
    (l.foldl (fun acc p => match p.2.timer with
        | some t => clearTimeout acc t
        | none => acc) acc).nextAid = acc.nextAid ∧
    (l.foldl (fun acc p => match p.2.timer with
        | some t => clearTimeout acc t
        | none => acc) acc).nextTid = acc.nextTid ∧
    (l.foldl (fun acc p => match p.2.timer with
        | some t => clearTimeout acc t
        | none => acc) acc).timers.Sublist acc.timers := by
  induction l generalizing acc with
  | nil => exact ⟨rfl, rfl, rfl, rfl, List.Sublist.refl _⟩
  | cons p l ih =>
    simp only [List.foldl_cons]
    cases p.2.timer with
    | none => exact ih acc
    | some t =>
      obtain ⟨h1, h2, h3, h4, h5⟩ := ih (clearTimeout acc t)
      exact ⟨h1, h2, h3, h4, h5.trans (List.filter_sublist _)⟩

theorem afterStop_stop (s : Helper) : AfterStop s s.stop := by
  obtain ⟨h1, h2, h3, h4, h5⟩ := stop_fold s.instances s
  refine ⟨rfl, h3, h4, ?_, h5, ?_, ?_⟩
  · show (s.instances.foldl _ s).inflight.Sublist s.inflight
    rw [h1]
  · show s.sent <+: (s.instances.foldl _ s).sent
    rw [h2]
  · show (s.instances.foldl _ s).sent.length + (s.instances.foldl _ s).inflight.length
      = s.sent.length + s.inflight.length
    rw [h1, h2]

theorem afterStop_refl (s : Helper) (h : s.instances = []) : AfterStop s s :=
  ⟨h, rfl, rfl, List.Sublist.refl _, List.Sublist.refl _, List.prefix_refl _, rfl⟩

theorem afterStop_trans (s0 s1 s2 : Helper) (h01 : AfterStop s0 s1) (h12 : AfterStop s1 s2) :
    AfterStop s0 s2 := by
  obtain ⟨_, a1, t1, i1, m1, e1, l1⟩ := h01
  obtain ⟨z2, a2, t2, i2, m2, e2, l2⟩ := h12
  exact ⟨z2, a2.trans a1, t2.trans t1, i2.trans i1, m2.trans m1, e1.trans e2, l2.trans l1⟩

theorem pollSettle_nil (s : Helper) (identifier : String)
    (result : Except JsError AcqResult) (now : Int) (h : s.instances = []) :
    (pollSettle s identifier result now).state.instances = [] ∧
    (pollSettle s identifier result now).state.nextAid = s.nextAid ∧
    (pollSettle s identifier result now).state.nextTid = s.nextTid ∧
    (pollSettle s identifier result now).state.inflight = s.inflight ∧
    (pollSettle s identifier result now).state.timers = s.timers := by
  cases result with
  | ok res =>
    simp [pollSettle, tryCatchFinally, pollFinally, sendSocketNotification, h, mapUpdate]
  | error err =>
    simp [pollSettle, tryCatchFinally, pollFinally, pollCatch, sendSocketNotification, h,
      mapUpdate, mapGet]

theorem step_afterStop (strToNum : String → JsNum) (s : Helper) (e : Event)
    (h : s.instances = []) (he : e.isConfig = false) : AfterStop s (step strToNum s e) := by
  cases e with
  | notify n p now =>
    have hn : n ≠ "CONFIG" := by simpa [Event.isConfig] using he
    have hs : step strToNum s (.notify n p now) = s := by
      cases p with
      | none => rfl
      | some p => simp [step, socketNotificationReceived, hn, h, mapGet]
    rw [hs]
    exact afterStop_refl s h
  | fire tid now =>
    cases hf : s.timers.find? (fun t => t.tid = tid) with
    | none =>
      simp only [step, hf]
      exact afterStop_refl s h
    | some t =>
      simp only [step, hf]
      have hs : timerCallback strToNum (clearTimeout s tid) t now = clearTimeout s tid := by
        simp [timerCallback, pollThen, _pollOnce, clearTimeout, h, mapUpdate, mapGet, afterPoll,
          _scheduleNext]
      rw [hs]
      exact ⟨h, rfl, rfl, List.Sublist.refl _, List.filter_sublist _, List.prefix_refl _, rfl⟩
  | settle aid result now =>
    cases hf : s.inflight.find? (fun a => a.aid = aid) with
    | none =>
      simp only [step, hf]
      exact afterStop_refl s h
    | some a =>
      simp only [step, hf]
      rw [afterPoll_pollSettle]
      obtain ⟨z, ha, ht, hi, hm⟩ := pollSettle_nil
        { s with inflight := s.inflight.eraseP (fun b => b.aid = aid) } a.identifier result now h
      rw [scheduleNext_nil _ _ _ z]
      refine ⟨z, ha, ht, ?_, ?_, ?_, ?_⟩
      · rw [hi]; exact List.eraseP_sublist _
      · rw [hm]
      · rw [pollSettle_sent]; exact List.prefix_append _ _
      · rw [hi, pollSettle_sent]
        have hmem : a ∈ s.inflight := List.mem_of_find?_eq_some hf
        have hpa : (fun b : Acq => decide (b.aid = aid)) a = true :=
          List.find?_some (p := fun b : Acq => decide (b.aid = aid)) hf
        have hlen := List.length_eraseP_of_mem (p := fun b : Acq => decide (b.aid = aid))
          hmem hpa
        have hpos : 0 < s.inflight.length := List.length_pos_of_mem hmem
        simp only [List.length_append, List.length_singleton]
        omega
  | stop =>
    simp only [step]
    exact afterStop_stop s

theorem run_afterStop (strToNum : String → JsNum) (es : List Event) (s : Helper)
    (h : s.instances = []) (hes : ∀ e ∈ es, e.isConfig = false) :
    AfterStop s (run strToNum s es) := by
  induction es generalizing s with
  | nil => exact afterStop_refl s h
  | cons e es ih =>
    have h1 := step_afterStop strToNum s e h (hes e (List.mem_cons_self _ _))
    have h2 := ih (step strToNum s e) h1.1 (fun e' he' => hes e' (List.mem_cons_of_mem _ he'))
    exact afterStop_trans _ _ _ h1 h2

/-- C3, amended: once `stop ()` has returned, and as long as no `CONFIG`
arrives, the instance table stays empty, no acquisition is started and no
timer is armed, and the notifications sent since are exactly one for each
acquisition that was in flight at `stop ()` and has settled since.  In any
state, the record being current or not, an acquisition in flight sends exactly
one notification when its acquirer settles: a replaced or removed record does
not cancel the report. -/
theorem C3_reports_after_stop (strToNum : String → JsNum) (s : Helper) (es : List Event)
    (hes : ∀ e ∈ es, e.isConfig = false) :
    AfterStop s (run strToNum s.stop es) ∧
    ∀ (s2 : Helper) (aid : Nat) (a : Acq) (result : Except JsError AcqResult) (t : Int),
      s2.inflight.find? (fun b => b.aid = aid) = some a →
      (step strToNum s2 (.settle aid result t)).sent
        = s2.sent ++ [match result with
            | .ok res => .SNAPSHOT a.identifier (dataUrl res) t "online"
            | .error _ => .STATUS a.identifier "offline"] := by
  refine ⟨afterStop_trans _ _ _ (afterStop_stop s) (run_afterStop strToNum es s.stop rfl hes), ?_⟩
  intro s2 aid a result t hf
  simp only [step, hf]
  rw [afterPoll_pollSettle, scheduleNext_sent, pollSettle_sent]

/-- A capture in flight at `stop ()` that settles afterwards. -/
theorem C3_reports_after_stop_witness :
    (∀ e ∈ [Event.settle 0 jpeg 700, camResume 800], e.isConfig = false) ∧
    (AfterStop (run noStrings Helper.start [camConfig (localConfig 1000) 100])
        (run noStrings (run noStrings Helper.start [camConfig (localConfig 1000) 100]).stop
          [Event.settle 0 jpeg 700, camResume 800]) ∧
      ∀ (s2 : Helper) (aid : Nat) (a : Acq) (result : Except JsError AcqResult) (t : Int),
        s2.inflight.find? (fun b => b.aid = aid) = some a →
        (step noStrings s2 (.settle aid result t)).sent
          = s2.sent ++ [match result with
              | .ok res => .SNAPSHOT a.identifier (dataUrl res) t "online"
              | .error _ => .STATUS a.identifier "offline"]) :=
  ⟨by decide,
    C3_reports_after_stop noStrings (run noStrings Helper.start [camConfig (localConfig 1000) 100])
      [Event.settle 0 jpeg 700, camResume 800] (by decide)⟩

end PiCameraStream
